import Mathlib

/-!
Verification of the cardio-risk-vision client against its specification.

The form-validation-and-submission workflow and the bounded client-side
history cache are embedded shallowly: the zod schema `formSchema`, the
submit handler `onSubmit` of `CardiovascularForm`, the history reader
`loadHistory` of `PredictionHistory`, and the result card
`PredictionResult` become Lean functions over explicit state.  Browser
facilities (the clock, `sessionStorage` content, the network response)
are passed in as arguments; JavaScript `NaN`/`undefined` are modelled as
`Option`, JSON parse failures as `Except`, and JS numbers as `Int`/`ℚ`.
-/

namespace CardioVision

/-- The eleven fields of `formSchema` (CardiovascularForm, lines 17-29). -/
inductive Field where
  | age | gender | height | weight | ap_hi | ap_lo
  | cholesterol | gluc | smoke | alco | active
deriving DecidableEq, Repr

/-- A form value as seen by the zod resolver: numeric inputs carry JS
numbers (integers here, produced by the `parseInt(...) || 0` change
handlers), select inputs carry their string values (`'1'`/`'2'` etc.). -/
structure FormInput where
  age : Int
  gender : String
  height : Int
  weight : Int
  ap_hi : Int
  ap_lo : Int
  cholesterol : String
  gluc : String
  smoke : String
  alco : String
  active : String
deriving DecidableEq, Repr

/-- Embedding of `z.number().min(lo, loMsg).max(hi, hiMsg)`: each failing check
contributes one issue for field `f`; zod runs both checks. -/
def numErrors (f : Field) (v lo hi : Int) (loMsg hiMsg : String) :
    List (Field × String) :=
  (if v < lo then [(f, loMsg)] else []) ++ (if v > hi then [(f, hiMsg)] else [])

/-- Embedding of `z.enum([...])`: one `invalid_enum_value` issue when the value is not a
declared member (the dynamic "received ..." suffix of zod's message is
abstracted away). -/
def enumErrors (f : Field) (v : String) (allowed : List String) :
    List (Field × String) :=
  if v ∈ allowed then [] else [(f, "Invalid enum value")]

/-- Embedding of `formSchema.safeParse`: the issues of all eleven fields, in schema
order (zod validates every key of the object and concatenates issues). -/
def validate (i : FormInput) : List (Field × String) :=
  numErrors .age i.age 1 50000 "Age must be at least 1 day" "Age seems unrealistic"
  ++ enumErrors .gender i.gender ["1", "2"]
  ++ numErrors .height i.height 50 250 "Height must be at least 50 cm" "Height must be less than 250 cm"
  ++ numErrors .weight i.weight 10 300 "Weight must be at least 10 kg" "Weight must be less than 300 kg"
  ++ numErrors .ap_hi i.ap_hi 70 250 "Systolic pressure must be at least 70" "Systolic pressure seems too high"
  ++ numErrors .ap_lo i.ap_lo 40 150 "Diastolic pressure must be at least 40" "Diastolic pressure seems too high"
  ++ enumErrors .cholesterol i.cholesterol ["1", "2", "3"]
  ++ enumErrors .gluc i.gluc ["1", "2", "3"]
  ++ enumErrors .smoke i.smoke ["0", "1"]
  ++ enumErrors .alco i.alco ["0", "1"]
  ++ enumErrors .active i.active ["0", "1"]

/-- The constraint table of spec §3, per field, as the spec states it
(range bounds inclusive; enum fields must match a declared member). -/
def violates (i : FormInput) : Field → Prop
  | .age => ¬ (1 ≤ i.age ∧ i.age ≤ 50000)
  | .gender => i.gender ∉ (["1", "2"] : List String)
  | .height => ¬ (50 ≤ i.height ∧ i.height ≤ 250)
  | .weight => ¬ (10 ≤ i.weight ∧ i.weight ≤ 300)
  | .ap_hi => ¬ (70 ≤ i.ap_hi ∧ i.ap_hi ≤ 250)
  | .ap_lo => ¬ (40 ≤ i.ap_lo ∧ i.ap_lo ≤ 150)
  | .cholesterol => i.cholesterol ∉ (["1", "2", "3"] : List String)
  | .gluc => i.gluc ∉ (["1", "2", "3"] : List String)
  | .smoke => i.smoke ∉ (["0", "1"] : List String)
  | .alco => i.alco ∉ (["0", "1"] : List String)
  | .active => i.active ∉ (["0", "1"] : List String)

instance (i : FormInput) (f : Field) : Decidable (violates i f) := by
  cases f <;> (simp only [violates]) <;> infer_instance

/-- The schema's fields in declaration order. -/
def allFields : List Field :=
  [.age, .gender, .height, .weight, .ap_hi, .ap_lo,
   .cholesterol, .gluc, .smoke, .alco, .active]

/-- The change handlers of the five numeric inputs run
`field.onChange(parseInt(e.target.value) || 0)`.  `parseInt` on an empty
or non-numeric string yields `NaN` (modelled `none`); `NaN || 0` is `0`,
and `0 || 0` is `0`, so `x || 0` on an integer result is the identity. -/
def coerceNumericInput : Option Int → Int
  | none => 0
  | some n => n

/-- The predictor's parsed JSON body `{ prediction, probability }`.
`probability` is a JS float, modelled as a rational. -/
structure PredictionResponse where
  prediction : Int
  probability : ℚ
deriving DecidableEq, Repr

/-- A history entry as built in `onSubmit`: `id` is
`Date.now().toString()` and `timestamp` the same instant (the clock is
modelled as a millisecond counter; `toISOString` is abstracted to it). -/
structure HistoryEntry where
  id : String
  timestamp : Nat
  data : FormInput
  result : PredictionResponse
deriving DecidableEq, Repr

/-- The `cardio_history` value in `sessionStorage`: the key may be
absent (`getItem` returns `null`), hold a blob on which `JSON.parse`
throws (`malformed`, carrying the engine's error message), or hold a
serialized log. -/
inductive StoredHistory where
  | absent
  | malformed (msg : String)
  | valid (log : List HistoryEntry)
deriving DecidableEq, Repr

/-- Embedding of `JSON.parse(sessionStorage.getItem('cardio_history') || '[]')` in
`onSubmit`: an absent key falls back to the literal `'[]'`, a malformed
blob makes `JSON.parse` throw. -/
def readHistoryForAppend : StoredHistory → Except String (List HistoryEntry)
  | .absent => .ok []
  | .malformed msg => .error msg
  | .valid log => .ok log

/-- Embedding of `loadHistory` in `PredictionHistory`: `getItem` then
`if (stored) setHistory(JSON.parse(stored))`, with the state initially
`[]`.  The value is the in-memory log after the call, or the parse
error that `JSON.parse` throws out of the effect. -/
def loadHistory : StoredHistory → Except String (List HistoryEntry)
  | .absent => .ok []
  | .malformed msg => .error msg
  | .valid log => .ok log

/-- The new entry built in `onSubmit`:
`{ id: Date.now().toString(), timestamp: ..., data, result }`. -/
def mkEntry (now : Nat) (d : FormInput) (r : PredictionResponse) : HistoryEntry :=
  { id := Nat.repr now, timestamp := now, data := d, result := r }

/-- Embedding of `history.unshift(newEntry)` followed by `history.slice(0, 10)`
before `setItem`. -/
def appendHistory (log : List HistoryEntry) (e : HistoryEntry) : List HistoryEntry :=
  (e :: log).take 10

/-- A `fetch` outcome: the promise rejects (network error, message
`msg`), or an HTTP response arrives with its `ok` flag, `status`, and
the result of `response.json()` (`Except` error = body parse failure). -/
structure HttpResponse where
  ok : Bool
  status : Nat
  body : Except String PredictionResponse
deriving Repr

inductive FetchResult where
  | networkError (msg : String)
  | response (r : HttpResponse)
deriving Repr

/-- A toast notification; `destructive := true` is the error variant. -/
structure Toast where
  title : String
  description : String
  destructive : Bool
deriving DecidableEq, Repr

def errorToast (msg : String) : Toast :=
  { title := "Error", description := msg, destructive := true }

/-- Embedding of `Math.round(x)` on a (non-NaN) JS number: floor of `x + 1/2`. -/
def jsRound (q : ℚ) : Int := ⌊q + 1/2⌋

/-- Embedding of `result.prediction === 1 ? 'High' : 'Low'` in the success toast. -/
def riskWord (r : PredictionResponse) : String :=
  if r.prediction = 1 then "High" else "Low"

/-- The success toast of `onSubmit`:
title `Prediction Complete`, description
`Risk level: ${High|Low} (${Math.round(result.probability * 100)}% confidence)`. -/
def successToast (r : PredictionResponse) : Toast :=
  { title := "Prediction Complete"
    description :=
      "Risk level: " ++ riskWord r ++ " ("
        ++ toString (jsRound (r.probability * 100)) ++ "% confidence)"
    destructive := false }

/-- The observable state after `onSubmit` returns: the `prediction`
React state, the session storage, the `isLoading` flag (reset in
`finally`), the toast emitted, and whether the `storage` event was
dispatched. -/
structure SubmitEffects where
  prediction : Option PredictionResponse
  stored : StoredHistory
  isLoading : Bool
  toast : Toast
  storageEventDispatched : Bool
deriving Repr

/-- Shallow embedding of `onSubmit` (CardiovascularForm, lines 55-124).
`d` has already passed the resolver; `prev` and `stored` are the
`prediction` state and session storage before the call; `fetch` the
network outcome; `now` the clock.  Control flow follows the source: a
non-ok response throws `HTTP error! status: ...`; on a parsed body,
`setPrediction` runs first, then the history read-modify-write (whose
`JSON.parse` may throw into the same catch), then the dispatch and the
success toast; every thrown `Error`'s message reaches the error toast;
`finally` clears `isLoading`. -/
def onSubmit (d : FormInput) (prev : Option PredictionResponse)
    (stored : StoredHistory) (fetch : FetchResult) (now : Nat) : SubmitEffects :=
  match fetch with
  | .networkError msg =>
      { prediction := prev, stored := stored, isLoading := false
        toast := errorToast msg, storageEventDispatched := false }
  | .response r =>
      if r.ok = false then
        { prediction := prev, stored := stored, isLoading := false
          toast := errorToast ("HTTP error! status: " ++ Nat.repr r.status)
          storageEventDispatched := false }
      else
        match r.body with
        | .error msg =>
            { prediction := prev, stored := stored, isLoading := false
              toast := errorToast msg, storageEventDispatched := false }
        | .ok result =>
            match readHistoryForAppend stored with
            | .error msg =>
                { prediction := some result, stored := stored, isLoading := false
                  toast := errorToast msg, storageEventDispatched := false }
            | .ok history =>
                { prediction := some result
                  stored := .valid (appendHistory history (mkEntry now d result))
                  isLoading := false
                  toast := successToast result
                  storageEventDispatched := true }

/-- The observable outcome of a submit click through
`form.handleSubmit(onSubmit)`. -/
structure SubmitResult where
  fetchInvoked : Bool
  fieldErrors : List (Field × String)
  prediction : Option PredictionResponse
  stored : StoredHistory
  isLoading : Bool
  toasts : List Toast
  storageEventDispatched : Bool
deriving Repr

/-- Embedding of `form.handleSubmit(onSubmit)` with `zodResolver(formSchema)`
(react-hook-form contract): when the schema reports any issue the
handler is not called and the field errors are surfaced inline;
otherwise `onSubmit` runs on the parsed data. -/
def handleSubmit (i : FormInput) (prev : Option PredictionResponse)
    (stored : StoredHistory) (fetch : FetchResult) (now : Nat) : SubmitResult :=
  match validate i with
  | [] =>
      let e := onSubmit i prev stored fetch now
      { fetchInvoked := true, fieldErrors := [], prediction := e.prediction
        stored := e.stored, isLoading := e.isLoading, toasts := [e.toast]
        storageEventDispatched := e.storageEventDispatched }
  | err :: errs =>
      { fetchInvoked := false, fieldErrors := err :: errs, prediction := prev
        stored := stored, isLoading := false, toasts := []
        storageEventDispatched := false }

/-- The props object of `<PredictionResult prediction={prediction} />`:
the state value is the parsed response, whose JS fields are
`prediction` and `probability`; the component additionally reads
`confidence`, so that access is part of the object model (absent field
= `undefined` = `none`). -/
structure JsPredictionProp where
  prediction : Option Int
  confidence : Option ℚ
deriving DecidableEq, Repr

/-- Field lookup on the object `onSubmit` stores in the `prediction`
state: it has `prediction` and `probability`, but no `confidence`. -/
def toDisplayProp (r : PredictionResponse) : JsPredictionProp :=
  { prediction := some r.prediction, confidence := none }

/-- What the result card renders: `riskLevel` (shown as `... Risk`) and
the rounded confidence (`none` = `NaN`, rendered `NaN%`). -/
structure CardView where
  riskLevel : String
  confidence : Option Int
deriving DecidableEq, Repr

/-- Embedding of `PredictionResult` (PredictionResult.tsx, lines 15-18):
`isHighRisk = prediction.prediction === 1`,
`confidence = Math.round(prediction.confidence * 100)` — `undefined *
100` is `NaN` and `Math.round(NaN)` is `NaN` —,
`riskLevel = isHighRisk ? 'High' : 'Low'`. -/
def renderCard (p : JsPredictionProp) : CardView :=
  { riskLevel := if p.prediction == some 1 then "High" else "Low"
    confidence :=
      match p.confidence with
      | none => none
      | some c => some (jsRound (c * 100)) }

/-- The entry an `Append` item (clock value plus recorded payload)
produces. -/
def mkE (x : Nat × FormInput × PredictionResponse) : HistoryEntry :=
  mkEntry x.1 x.2.1 x.2.2

/-- A sequence of `Append` calls as `onSubmit` performs them, starting
from the empty log: each step prepends the new entry and truncates to
the 10 most recent. -/
def runAppends (items : List (Nat × FormInput × PredictionResponse)) :
    List HistoryEntry :=
  items.foldl (fun log x => appendHistory log (mkE x)) []

/-- The end-to-end scenario input of spec §8: age 9125 days, male,
170 cm, 70 kg, 120/80, normal cholesterol and glucose, non-smoker, no
alcohol, physically active — in wire form. -/
def dSample : FormInput :=
  { age := 9125, gender := "1", height := 170, weight := 70
    ap_hi := 120, ap_lo := 80, cholesterol := "1", gluc := "1"
    smoke := "0", alco := "0", active := "1" }

/-- The stub predictor response of scenario 1: `{prediction: 0, probability: 0.82}`. -/
def rLow : PredictionResponse := { prediction := 0, probability := 82/100 }

/-- Fuel-free decimal rendering of a natural number, used to reason
about `Nat.repr` (which `Date.now().toString()` is modelled with). -/
def decChars (n : Nat) : List Char :=
  if _h : n < 10 then [Nat.digitChar n]
  else decChars (n / 10) ++ [Nat.digitChar (n % 10)]
decreasing_by exact Nat.div_lt_self (by omega) (by omega)

/-! ## Theorems -/

lemma digitChar_injOn : ∀ m < 10, ∀ n < 10,
    Nat.digitChar m = Nat.digitChar n → m = n := by decide

lemma decChars_of_lt {n : Nat} (h : n < 10) : decChars n = [Nat.digitChar n] := by
  rw [decChars, dif_pos h]

lemma decChars_of_ge {n : Nat} (h : ¬ n < 10) :
    decChars n = decChars (n / 10) ++ [Nat.digitChar (n % 10)] := by
  rw [decChars, dif_neg h]

lemma decChars_ne_nil (n : Nat) : decChars n ≠ [] := by
  by_cases h : n < 10
  · rw [decChars_of_lt h]; simp
  · rw [decChars_of_ge h]; simp

lemma toDigitsCore_eq_decChars (f : Nat) :
    ∀ (n : Nat) (ds : List Char), n < f →
      Nat.toDigitsCore 10 f n ds = decChars n ++ ds := by
  induction f with
  | zero => intro n ds h; omega
  | succ f ih =>
    intro n ds h
    rw [Nat.toDigitsCore]
    by_cases h0 : n / 10 = 0
    · have hn : n < 10 := by omega
      rw [if_pos h0, decChars_of_lt hn, Nat.mod_eq_of_lt hn]
      rfl
    · rw [if_neg h0, decChars_of_ge (by omega : ¬ n < 10),
        ih (n / 10) _ (by omega)]
      simp

lemma decChars_inj : ∀ m n : Nat, decChars m = decChars n → m = n := by
  intro m
  induction m using Nat.strong_induction_on with
  | _ m ih =>
    intro n h
    by_cases hm : m < 10 <;> by_cases hn : n < 10
    · rw [decChars_of_lt hm, decChars_of_lt hn] at h
      exact digitChar_injOn m hm n hn (by simpa using h)
    · exfalso
      rw [decChars_of_lt hm, decChars_of_ge hn] at h
      have hlen := congrArg List.length h
      rw [List.length_append] at hlen
      simp only [List.length_singleton] at hlen
      exact decChars_ne_nil (n / 10) (List.length_eq_zero.mp (by omega))
    · exfalso
      rw [decChars_of_ge hm, decChars_of_lt hn] at h
      have hlen := congrArg List.length h
      rw [List.length_append] at hlen
      simp only [List.length_singleton] at hlen
      exact decChars_ne_nil (m / 10) (List.length_eq_zero.mp (by omega))
    · rw [decChars_of_ge hm, decChars_of_ge hn] at h
      obtain ⟨h1, h2⟩ := List.append_inj' h (by simp)
      have hd : m / 10 = n / 10 :=
        ih (m / 10) (Nat.div_lt_self (by omega) (by omega)) (n / 10) h1
      have hmod : m % 10 = n % 10 :=
        digitChar_injOn _ (Nat.mod_lt _ (by omega)) _ (Nat.mod_lt _ (by omega))
          (by simpa using h2)
      omega

lemma natRepr_injective : Function.Injective Nat.repr := by
  intro m n h
  simp only [Nat.repr] at h
  have h' : Nat.toDigits 10 m = Nat.toDigits 10 n := List.asString_inj.mp h
  unfold Nat.toDigits at h'
  rw [toDigitsCore_eq_decChars _ _ _ (Nat.lt_succ_self m),
      toDigitsCore_eq_decChars _ _ _ (Nat.lt_succ_self n)] at h'
  exact decChars_inj m n (by simpa using h')

lemma mem_numErrors {x : Field × String} {f : Field} {v lo hi : Int}
    {m1 m2 : String} :
    x ∈ numErrors f v lo hi m1 m2
      ↔ (x = (f, m1) ∧ v < lo) ∨ (x = (f, m2) ∧ hi < v) := by
  unfold numErrors
  by_cases h1 : v < lo <;> by_cases h2 : v > hi <;> simp [h1, h2]

lemma mem_enumErrors {x : Field × String} {f : Field} {v : String}
    {allowed : List String} :
    x ∈ enumErrors f v allowed
      ↔ x = (f, "Invalid enum value") ∧ v ∉ allowed := by
  unfold enumErrors
  by_cases h : v ∈ allowed <;> simp [h]

lemma mem_map_fst_validate (i : FormInput) (f : Field) :
    f ∈ (validate i).map Prod.fst ↔ violates i f := by
  cases f <;>
    simp [validate, violates, List.mem_map, mem_numErrors, mem_enumErrors,
      exists_or] <;>
    omega

lemma numErrors_fst_sublist {f : Field} {v lo hi : Int} {m1 m2 : String}
    (h : lo ≤ hi) :
    List.Sublist ((numErrors f v lo hi m1 m2).map Prod.fst) [f] := by
  unfold numErrors
  by_cases h1 : v < lo <;> by_cases h2 : v > hi
  · exact absurd h (by omega)
  · simp [h1, h2]
  · simp [h1, h2]
  · simp [h1, h2]

lemma enumErrors_fst_sublist {f : Field} {v : String} {allowed : List String} :
    List.Sublist ((enumErrors f v allowed).map Prod.fst) [f] := by
  unfold enumErrors
  by_cases h : v ∈ allowed <;> simp [h]

lemma validate_fst_sublist (i : FormInput) :
    List.Sublist ((validate i).map Prod.fst) allFields := by
  have H : List.Sublist ((validate i).map Prod.fst)
      ([Field.age] ++ [Field.gender] ++ [Field.height] ++ [Field.weight]
        ++ [Field.ap_hi] ++ [Field.ap_lo] ++ [Field.cholesterol]
        ++ [Field.gluc] ++ [Field.smoke] ++ [Field.alco] ++ [Field.active]) := by
    simp only [validate, List.map_append]
    exact ((((((((((numErrors_fst_sublist (by omega)).append
      enumErrors_fst_sublist).append
      (numErrors_fst_sublist (by omega))).append
      (numErrors_fst_sublist (by omega))).append
      (numErrors_fst_sublist (by omega))).append
      (numErrors_fst_sublist (by omega))).append
      enumErrors_fst_sublist).append
      enumErrors_fst_sublist).append
      enumErrors_fst_sublist).append
      enumErrors_fst_sublist).append
      enumErrors_fst_sublist
  simpa [allFields] using H

lemma allFields_nodup : allFields.Nodup := by decide

lemma validate_fst_nodup (i : FormInput) :
    ((validate i).map Prod.fst).Nodup :=
  allFields_nodup.sublist (validate_fst_sublist i)

/-- Claim C7: `Validate` rejects an `AssessmentInput` iff at least one
field violates its stated range/enum constraint, and the reported
field-scoped errors are exactly the violated fields — every violation is
surfaced (membership both ways) and each violated field is reported
once (the reported field list has no duplicates). -/
theorem validate_rejects_iff_violation (i : FormInput) :
    (validate i ≠ [] ↔ ∃ f, violates i f) ∧
    (∀ f, f ∈ (validate i).map Prod.fst ↔ violates i f) ∧
    ((validate i).map Prod.fst).Nodup := by
  refine ⟨?_, fun f => mem_map_fst_validate i f, validate_fst_nodup i⟩
  constructor
  · intro h
    obtain ⟨e, he⟩ := List.exists_mem_of_ne_nil _ h
    exact ⟨e.1, (mem_map_fst_validate i e.1).mp (List.mem_map_of_mem _ he)⟩
  · rintro ⟨f, hf⟩ hnil
    have := (mem_map_fst_validate i f).mpr hf
    rw [hnil] at this
    simp at this

/-- Claim C8: the numeric range bounds of the schema are inclusive —
each interval endpoint is accepted and each value one beyond an
endpoint is rejected, for age [1, 50000], height [50, 250],
weight [10, 300], systolicBP [70, 250] and diastolicBP [40, 150]. -/
theorem boundary_bounds_inclusive :
    validate { dSample with age := 1 } = [] ∧
    validate { dSample with age := 50000 } = [] ∧
    validate { dSample with age := 0 } ≠ [] ∧
    validate { dSample with age := 50001 } ≠ [] ∧
    validate { dSample with height := 50 } = [] ∧
    validate { dSample with height := 250 } = [] ∧
    validate { dSample with height := 49 } ≠ [] ∧
    validate { dSample with height := 251 } ≠ [] ∧
    validate { dSample with weight := 10 } = [] ∧
    validate { dSample with weight := 300 } = [] ∧
    validate { dSample with weight := 9 } ≠ [] ∧
    validate { dSample with weight := 301 } ≠ [] ∧
    validate { dSample with ap_hi := 70 } = [] ∧
    validate { dSample with ap_hi := 250 } = [] ∧
    validate { dSample with ap_hi := 69 } ≠ [] ∧
    validate { dSample with ap_hi := 251 } ≠ [] ∧
    validate { dSample with ap_lo := 40 } = [] ∧
    validate { dSample with ap_lo := 150 } = [] ∧
    validate { dSample with ap_lo := 39 } ≠ [] ∧
    validate { dSample with ap_lo := 151 } ≠ [] := by
  refine ⟨?_, ?_, ?_, ?_, ?_, ?_, ?_, ?_, ?_, ?_,
    ?_, ?_, ?_, ?_, ?_, ?_, ?_, ?_, ?_, ?_⟩ <;> decide

lemma take_append_take {α : Type} (A B : List α) (k : Nat) :
    (A ++ B.take k).take k = (A ++ B).take k := by
  rw [List.take_append_eq_append_take, List.take_append_eq_append_take,
    List.take_take]
  congr 1
  rw [Nat.min_eq_left (Nat.sub_le k A.length)]

lemma runAppends_go (items : List (Nat × FormInput × PredictionResponse)) :
    ∀ acc : List HistoryEntry, acc.length ≤ 10 →
      items.foldl (fun log x => appendHistory log (mkE x)) acc
        = ((items.map mkE).reverse ++ acc).take 10 := by
  induction items with
  | nil =>
    intro acc h
    simp [List.take_of_length_le h]
  | cons x xs ih =>
    intro acc h
    simp only [List.foldl_cons]
    rw [ih (appendHistory acc (mkE x)) (by simp [appendHistory])]
    show ((xs.map mkE).reverse ++ (mkE x :: acc).take 10).take 10 = _
    rw [take_append_take]
    simp

lemma runAppends_eq (items : List (Nat × FormInput × PredictionResponse)) :
    runAppends items = ((items.map mkE).reverse).take 10 := by
  rw [runAppends, runAppends_go items [] (by simp)]
  simp

lemma runAppends_length_le (items : List (Nat × FormInput × PredictionResponse)) :
    (runAppends items).length ≤ 10 := by
  rw [runAppends_eq, List.length_take]
  exact Nat.min_le_left _ _

/-- Claim C6: starting from the empty log, 11 `Append` calls leave
exactly the last 10 appended entries, newest first (the oldest entry is
the one dropped, never the newest), and after any sequence of `Append`
calls the log length never exceeds 10. -/
theorem eleven_appends_keep_last_ten
    (x1 x2 x3 x4 x5 x6 x7 x8 x9 x10 x11 : Nat × FormInput × PredictionResponse) :
    runAppends [x1, x2, x3, x4, x5, x6, x7, x8, x9, x10, x11]
      = [mkE x11, mkE x10, mkE x9, mkE x8, mkE x7, mkE x6,
         mkE x5, mkE x4, mkE x3, mkE x2] ∧
    (runAppends [x1, x2, x3, x4, x5, x6, x7, x8, x9, x10, x11]).length = 10 ∧
    ∀ items, (runAppends items).length ≤ 10 :=
  ⟨rfl, rfl, runAppends_length_le⟩

/-- Claim C4 counterexample: ids are `Date.now().toString()`, not
freshly unique — two `Append` calls in the same millisecond (clock value
7 twice) yield a log whose two entries share the id `"7"`. -/
theorem duplicate_id_same_millisecond :
    ((runAppends [(7, dSample, { prediction := 0, probability := 1 }),
        (7, dSample, { prediction := 1, probability := 1 })]).map
      (fun e => e.id)) = ["7", "7"] ∧
    ¬ (((runAppends [(7, dSample, { prediction := 0, probability := 1 }),
        (7, dSample, { prediction := 1, probability := 1 })]).map
      (fun e => e.id)).Nodup) := by
  refine ⟨by decide, by decide⟩

/-- Claim C4 amended: each entry's id is the clock value of its
`Append` rendered in decimal; whenever the append timestamps are
pairwise distinct (no two appends in the same millisecond), the
resulting log contains no duplicate id. -/
theorem appended_ids_nodup_of_times_nodup
    (items : List (Nat × FormInput × PredictionResponse))
    (h : (items.map (fun x => x.1)).Nodup) :
    ((runAppends items).map (fun e => e.id)).Nodup := by
  have hfull : (((items.map mkE).reverse).map (fun e => e.id)).Nodup := by
    rw [List.map_reverse, List.nodup_reverse, List.map_map]
    have hcomp : ((fun e : HistoryEntry => e.id) ∘ mkE)
        = (Nat.repr ∘ fun x : Nat × FormInput × PredictionResponse => x.1) := rfl
    rw [hcomp, ← List.map_map]
    exact h.map natRepr_injective
  rw [runAppends_eq, List.map_take]
  exact List.Nodup.sublist (List.take_sublist _ _) hfull

/-- A run of the amended C4 statement at distinct clock values 1 and 2. -/
theorem appended_ids_nodup_of_times_nodup_witness :
    (([(1, dSample, rLow), (2, dSample, rLow)].map (fun x => x.1)).Nodup) ∧
    ((runAppends [(1, dSample, rLow), (2, dSample, rLow)]).map
      (fun e => e.id)).Nodup :=
  ⟨by decide, appended_ids_nodup_of_times_nodup _ (by decide)⟩

/-- Claim C5: when the predictor answers with a non-success status
(`response.ok` false, e.g. HTTP 500) the thrown `HTTP error! status: ...`
lands in the catch block — the History Store is untouched, the in-flight
flag ends false, a destructive error toast carrying the status is
emitted, no change event fires, and the previously displayed result is
unchanged. -/
theorem http_error_leaves_state_unchanged (d : FormInput)
    (prev : Option PredictionResponse) (stored : StoredHistory)
    (status : Nat) (body : Except String PredictionResponse) (now : Nat) :
    (onSubmit d prev stored
        (.response { ok := false, status := status, body := body }) now).stored
      = stored ∧
    (onSubmit d prev stored
        (.response { ok := false, status := status, body := body }) now).isLoading
      = false ∧
    (onSubmit d prev stored
        (.response { ok := false, status := status, body := body }) now).prediction
      = prev ∧
    (onSubmit d prev stored
        (.response { ok := false, status := status, body := body }) now).toast
      = errorToast ("HTTP error! status: " ++ Nat.repr status) ∧
    (onSubmit d prev stored
        (.response { ok := false, status := status, body := body }) now).toast.destructive
      = true ∧
    (onSubmit d prev stored
        (.response { ok := false, status := status, body := body }) now).storageEventDispatched
      = false :=
  ⟨rfl, rfl, rfl, rfl, rfl, rfl⟩

/-- Claim C9: when validation fails, `handleSubmit` never runs
`onSubmit` — no predictor call (the outcome does not depend on the
network at all), no History Store mutation, no toast — and the surfaced
inline errors are exactly the validation errors, which include every
violating field. -/
theorem invalid_submit_has_no_effects (i : FormInput)
    (prev : Option PredictionResponse) (stored : StoredHistory)
    (fetch fetch' : FetchResult) (now now' : Nat)
    (h : validate i ≠ []) :
    (handleSubmit i prev stored fetch now).fetchInvoked = false ∧
    (handleSubmit i prev stored fetch now).stored = stored ∧
    (handleSubmit i prev stored fetch now).prediction = prev ∧
    (handleSubmit i prev stored fetch now).toasts = [] ∧
    (handleSubmit i prev stored fetch now).fieldErrors = validate i ∧
    handleSubmit i prev stored fetch now = handleSubmit i prev stored fetch' now' ∧
    ∀ f, violates i f →
      f ∈ ((handleSubmit i prev stored fetch now).fieldErrors.map Prod.fst) := by
  rcases hv : validate i with _ | ⟨e, errs⟩
  · exact absurd hv h
  · simp only [handleSubmit, hv]
    refine ⟨trivial, trivial, trivial, trivial, trivial, trivial, ?_⟩
    intro f hf
    have hm := (mem_map_fst_validate i f).mpr hf
    rw [hv] at hm
    exact hm

/-- A run of C9 at the scenario-3 input `systolicBP = 300`. -/
theorem invalid_submit_has_no_effects_witness :
    validate { dSample with ap_hi := 300 } ≠ [] ∧
    (handleSubmit { dSample with ap_hi := 300 } none .absent
        (.networkError "unreachable") 0).fetchInvoked = false ∧
    (handleSubmit { dSample with ap_hi := 300 } none .absent
        (.networkError "unreachable") 0).stored = .absent :=
  ⟨by decide,
    (invalid_submit_has_no_effects { dSample with ap_hi := 300 } none .absent
      (.networkError "unreachable") (.networkError "unreachable") 0 0 (by decide)).1,
    (invalid_submit_has_no_effects { dSample with ap_hi := 300 } none .absent
      (.networkError "unreachable") (.networkError "unreachable") 0 0 (by decide)).2.1⟩

/-- Claim C2 counterexample: a successful submit over an unparsable
history blob does not silently treat the log as empty — the
`JSON.parse` throw reaches the generic catch block, so a destructive
(user-visible) error toast is emitted, nothing is appended or
persisted, and no change event fires. -/
theorem storage_error_not_silent :
    (onSubmit dSample none (.malformed "Unexpected token u in JSON")
        (.response { ok := true, status := 200, body := .ok rLow })
        1000).toast.destructive = true ∧
    (onSubmit dSample none (.malformed "Unexpected token u in JSON")
        (.response { ok := true, status := 200, body := .ok rLow })
        1000).toast.title = "Error" ∧
    (onSubmit dSample none (.malformed "Unexpected token u in JSON")
        (.response { ok := true, status := 200, body := .ok rLow })
        1000).stored = .malformed "Unexpected token u in JSON" ∧
    (onSubmit dSample none (.malformed "Unexpected token u in JSON")
        (.response { ok := true, status := 200, body := .ok rLow })
        1000).storageEventDispatched = false :=
  ⟨rfl, rfl, rfl, rfl⟩

/-- Claim C2 amended: an absent key is indeed treated as the empty log
(in both the submit-append read and `loadHistory`), but an unparsable
blob is not silent: in `onSubmit` the parse exception reaches the catch
block (error toast; no append, no success toast, no change event —
though the result state was already updated), and in `loadHistory` the
exception propagates instead of yielding an empty log. -/
theorem storage_error_behaviour (d : FormInput)
    (prev : Option PredictionResponse) (result : PredictionResponse)
    (now : Nat) (msg : String) :
    readHistoryForAppend .absent = .ok [] ∧
    loadHistory .absent = .ok [] ∧
    (onSubmit d prev .absent
        (.response { ok := true, status := 200, body := .ok result }) now)
      = { prediction := some result
          stored := .valid [mkEntry now d result]
          isLoading := false
          toast := successToast result
          storageEventDispatched := true } ∧
    readHistoryForAppend (.malformed msg) = .error msg ∧
    (onSubmit d prev (.malformed msg)
        (.response { ok := true, status := 200, body := .ok result }) now)
      = { prediction := some result
          stored := .malformed msg
          isLoading := false
          toast := errorToast msg
          storageEventDispatched := false } ∧
    loadHistory (.malformed msg) = .error msg :=
  ⟨rfl, rfl, rfl, rfl, rfl, rfl⟩

/-- Claim C3 counterexample: `loadHistory` on unparsable stored content
does not return the empty log — the `JSON.parse` exception escapes. -/
theorem load_malformed_not_empty :
    loadHistory (.malformed "Unexpected end of JSON input")
      = .error "Unexpected end of JSON input" ∧
    loadHistory (.malformed "Unexpected end of JSON input") ≠ .ok [] :=
  ⟨rfl, fun h => Except.noConfusion h⟩

/-- Claim C3 amended: `loadHistory` returns the persisted log; an
absent key leaves the log empty, but unparsable content makes
`JSON.parse` throw out of the loader (the in-memory log is not
updated) rather than being treated as an empty log. -/
theorem load_history_behaviour (log : List HistoryEntry) (msg : String) :
    loadHistory .absent = .ok [] ∧
    loadHistory (.valid log) = .ok log ∧
    loadHistory (.malformed msg) = .error msg :=
  ⟨rfl, rfl, rfl⟩

/-- Claim C10: an empty or non-numeric text in a numeric input is
coerced to `0` before validation, and a `0` value in any numeric field
is rejected by that field's minimum-bound constraint with the
minimum-bound message (there is no separate required error: with all
numeric fields `0`, the reported errors are exactly the five
minimum-bound messages). -/
theorem empty_numeric_coerced_to_zero_min_error :
    coerceNumericInput none = 0 ∧
    (∀ i : FormInput,
      (Field.age, "Age must be at least 1 day") ∈ validate { i with age := 0 }) ∧
    (∀ i : FormInput,
      (Field.height, "Height must be at least 50 cm") ∈ validate { i with height := 0 }) ∧
    (∀ i : FormInput,
      (Field.weight, "Weight must be at least 10 kg") ∈ validate { i with weight := 0 }) ∧
    (∀ i : FormInput,
      (Field.ap_hi, "Systolic pressure must be at least 70") ∈ validate { i with ap_hi := 0 }) ∧
    (∀ i : FormInput,
      (Field.ap_lo, "Diastolic pressure must be at least 40") ∈ validate { i with ap_lo := 0 }) ∧
    validate { dSample with age := 0, height := 0, weight := 0, ap_hi := 0, ap_lo := 0 }
      = [(Field.age, "Age must be at least 1 day"),
         (Field.height, "Height must be at least 50 cm"),
         (Field.weight, "Weight must be at least 10 kg"),
         (Field.ap_hi, "Systolic pressure must be at least 70"),
         (Field.ap_lo, "Diastolic pressure must be at least 40")] := by
  refine ⟨rfl, ?_, ?_, ?_, ?_, ?_, by decide⟩ <;>
    · intro i
      simp [validate, mem_numErrors, mem_enumErrors]

lemma jsRound_rLow : jsRound (rLow.probability * 100) = 82 := by
  norm_num [jsRound, rLow]

lemma successToast_rLow :
    successToast rLow = { title := "Prediction Complete"
                          description := "Risk level: Low (82% confidence)"
                          destructive := false } := by
  simp only [successToast, jsRound_rLow]
  rfl

/-- Claim C1 (evaluation at the scenario): submitting the scenario-1
input against the stub response `{prediction: 0, probability: 0.82}`
appends exactly one history entry with that outcome and emits the toast
`Risk level: Low (82% confidence)`; but the result card
(`PredictionResult`) computes its confidence from
`prediction.confidence`, a field the stored response object (which has
`probability`) does not carry, so the card renders risk level `Low`
with confidence `NaN` (`none`) instead of 82%. -/
theorem scenario1_card_confidence_nan :
    (handleSubmit dSample none .absent
        (.response { ok := true, status := 200, body := .ok rLow })
        1700000000000).stored
      = .valid [mkEntry 1700000000000 dSample rLow] ∧
    (mkEntry 1700000000000 dSample rLow).result = rLow ∧
    (handleSubmit dSample none .absent
        (.response { ok := true, status := 200, body := .ok rLow })
        1700000000000).prediction = some rLow ∧
    (handleSubmit dSample none .absent
        (.response { ok := true, status := 200, body := .ok rLow })
        1700000000000).toasts
      = [{ title := "Prediction Complete"
           description := "Risk level: Low (82% confidence)"
           destructive := false }] ∧
    renderCard (toDisplayProp rLow)
      = { riskLevel := "Low", confidence := none } := by
  refine ⟨rfl, rfl, rfl, ?_, rfl⟩
  show [successToast rLow] = _
  rw [successToast_rLow]

end CardioVision
